import Mathlib

/-!
Verification of the csharp-expr-rs expression evaluator.

The development shallowly embeds the two source files of the repository:

* `src/lib.rs` — AST (`Expr`), binder (`prepare_expr`) and evaluator
  (`exec_expr`), embedded in namespace `LibExpr`.
* `src/functions.rs` — the built-in function library, embedded in namespace
  `Functions`.  `functions.rs` imports `crate::expressions` (the value model
  `ExprResult`, the evaluator `exec_expr` and the coercion helpers'
  signatures); that module is not part of the provided sources, so those
  parts are modelled from the specification and marked as such.

Machine numerics: the source's `ExprDecimal` is `f64`; it is modelled as
`Rat` here.  No verified claim depends on floating-point rounding, NaN or
infinities, only on the flow of values and errors.
-/

namespace Functions

/-- Faithful embedding of `like_pattern_to_regex_pattern`'s loop body from
`src/functions.rs` (lines 186-241): one step of the left-to-right scan with
the `previous_char` one-character state.  The match arms are in the source's
order. -/
def like_to_regex_step (acc : String × Option Char) (c : Char) : String × Option Char :=
  let result := acc.1
  match acc.2, c with
  | none, '%' => (result, some c)
  | none, '_' => (result, some c)
  | none, _ => (result.push c, some c)
  | some '%', '%' => (result.push c, none)
  | some '_', '_' => (result.push c, none)
  | some '%', _ =>
    let r := result ++ ".*"
    (if c ≠ '%' ∧ c ≠ '_' then r.push c else r, some c)
  | some '_', _ =>
    let r := result ++ ".{1}"
    (if c ≠ '%' ∧ c ≠ '_' then r.push c else r, some c)
  | some _, '%' => (result, some c)
  | some _, '_' => (result, some c)
  | some _, _ => (result.push c, some c)

/-- Embedding of `like_pattern_to_regex_pattern` from `src/functions.rs`:
scan the LIKE pattern left to right, then flush a trailing wildcard and
close the `^...$` anchors. -/
def like_pattern_to_regex_pattern (like_pattern : String) : String :=
  let st := like_pattern.toList.foldl like_to_regex_step ("^", none)
  let result :=
    match st.2 with
    | some '%' => st.1 ++ ".*"
    | some '_' => st.1 ++ ".{1}"
    | _ => st.1
  result.push '$'

/-- Replace the first occurrence of the literal pattern `pat` in a character
list (Rust's `Regex::replace` with a literal pattern replaces only the
leftmost match and leaves the string unchanged when there is none). -/
def replaceFirstList (pat repl : List Char) : List Char → List Char
  | [] => if pat.isPrefixOf ([] : List Char) then repl else []
  | c :: cs =>
    if pat.isPrefixOf (c :: cs) then repl ++ (c :: cs).drop pat.length
    else c :: replaceFirstList pat repl cs

/-- `replaceFirstList` lifted to `String`. -/
def replaceFirst (s pat repl : String) : String :=
  ⟨replaceFirstList pat.toList repl.toList s.toList⟩

/-- The ordered replacement table `REPLACEMENTS` of
`dotnet_format_to_strptime_format` in `src/functions.rs` (lines 1196-1246).
All 46 patterns are literal strings (no regex metacharacters), applied in
this order, each replacing only the first occurrence. -/
def REPLACEMENTS : List (String × String) :=
  [("dddd", "%A"), ("ddd", "%a"), ("dd", "%DAY"), ("d", "%e"), ("%DAY", "%d"),
   ("fffffff", "%7f"), ("ffffff", "%6f"), ("fffff", "%5f"), ("ffff", "%4f"),
   ("fff", "%3f"), ("ff", "%2f"),
   ("FFFFFFF", "%7f"), ("FFFFFF", "%6f"), ("FFFFF", "%5f"), ("FFFF", "%4f"),
   ("FFF", "%3f"), ("FF", "%2f"), ("F", "%1f"),
   ("hh", "%I"), ("h", "%l"), ("HH", "%_OURS"), ("H", "%k"), ("%_OURS", "%H"),
   ("mm", "%_INUTE"), ("m", "%_INUTE"),
   ("MMMM", "%B"), ("MMM", "%b"), ("MM", "%m"), ("M", "%m"),
   ("%_INUTE", "%M"), ("%_INUTE", "%M"),
   ("ss", "%S"), ("s", "%S"), ("tt", "%P"), ("t", "%P"),
   ("yyyyy", "%Y"), ("yyyy", "%Y"), ("yyy", "%Y"), ("yy", "%YEAR"),
   ("y", "%y"), ("%YEAR", "%y"),
   ("zzz", "%:_one"), ("zz", "%_one"), ("z", "%z"), ("%_one", "%z"),
   ("%:_one", "%:z")]

/-- Embedding of `dotnet_format_to_strptime_format` from `src/functions.rs`:
fold the replacement table over the format string. -/
def dotnet_format_to_strptime_format (dotnet_format : String) : String :=
  REPLACEMENTS.foldl (fun acc replacer => replaceFirst acc replacer.1 replacer.2) dotnet_format

end Functions

namespace Functions

/-- `ExprDecimal` (`f64` in the source) modelled as `Rat`; no claim below
depends on floating-point rounding, NaN or infinities. -/
abbrev ExprDecimal := Rat

/-- Modelled from the spec: the value model `ExprResult` of the missing
`expressions` module (spec section 3).  `Date` and `TimeSpan` payloads are
abstracted to integers; no claim below inspects them. -/
inductive ExprResult where
  | Null
  | Str (s : String)
  | Boolean (b : Bool)
  | Num (n : ExprDecimal)
  | Date (d : Int)
  | TimeSpan (t : Int)
  | Array (xs : List ExprResult)

mutual

/-- Modelled from the spec: variant-wise structural equality of values
(spec section 4.A), the `==` of the missing `expressions` module. -/
def ExprResult.beq : ExprResult → ExprResult → Bool
  | .Null, .Null => true
  | .Str a, .Str b => a == b
  | .Boolean a, .Boolean b => a == b
  | .Num a, .Num b => a == b
  | .Date a, .Date b => a == b
  | .TimeSpan a, .TimeSpan b => a == b
  | .Array a, .Array b => ExprResult.beqList a b
  | _, _ => false

/-- Elementwise `ExprResult.beq` on sequences. -/
def ExprResult.beqList : List ExprResult → List ExprResult → Bool
  | [], [] => true
  | a :: moreA, b :: moreB => ExprResult.beq a b && ExprResult.beqList moreA moreB
  | _, _ => false

end

instance : BEq ExprResult := ⟨ExprResult.beq⟩

/-- Modelled from the spec: a value is final iff its variant is not
`Array` (spec section 3). -/
def ExprResult.is_final : ExprResult → Bool
  | .Array _ => false
  | _ => true

/-- Modelled from the spec: the stringifier for final values (spec section
4.A).  The `Num`, `Date` and `TimeSpan` renderings are abstracted to the
default renderings of the model payloads; no claim below depends on them,
and the `Array` branch is unreachable through `result_to_string`. -/
def ExprResult.to_string : ExprResult → String
  | .Null => ""
  | .Str s => s
  | .Boolean b => if b then "true" else "false"
  | .Num n => toString n
  | .Date d => toString d
  | .TimeSpan t => toString t
  | .Array _ => "Array"

/-- Modelled from the spec: the AST of the missing `expressions` module
(spec section 3).  A `BoundCall` stores its callable by name: by the
invariant that a bound call holds exactly the callable registered under its
stored name, the callable is recovered from the registry during
evaluation. -/
inductive Expr where
  | StrLit (s : String)
  | NumLit (n : ExprDecimal)
  | BoolLit (b : Bool)
  | ArrayLit (xs : List Expr)
  | Identifier (name : String)
  | FunctionCall (name : String) (params : List Expr)
  | BoundCall (name : String) (params : List Expr)

/-- `VecRcExpr`: the argument vector handed to every built-in. -/
abbrev VecRcExpr := List Expr

/-- The identifier map, modelled as an association list. -/
abbrev IdentifierValues := List (String × String)

/-- `ExprFuncResult = Result<ExprResult, String>`. -/
abbrev ExprFuncResult := Except String ExprResult

/-- Embedding of `results_are_equals` from `src/functions.rs` (lines
25-35): `Null` compares unequal to everything, otherwise structural
equality. -/
def results_are_equals (left right : ExprResult) : Bool :=
  match left with
  | .Null => false
  | _ =>
    match right with
    | .Null => false
    | _ => left == right

/-- Embedding of `result_to_string` from `src/functions.rs` (lines
37-43). -/
def result_to_string (expr : ExprResult) : Except String String :=
  if expr.is_final then .ok expr.to_string
  else .error "Can\x27t change this expression to string"

/-- Embedding of `assert_exact_params_count` from `src/functions.rs`
(lines 130-136). -/
def assert_exact_params_count (params : VecRcExpr) (count : Nat) (f_name : String) :
    Except String Unit :=
  if params.length = count then .ok ()
  else .error ("Function " ++ f_name ++ " should have exactly " ++ toString count ++ " parameters")

/-- Embedding of `assert_max_params_count` from `src/functions.rs` (lines
138-144). -/
def assert_max_params_count (params : VecRcExpr) (count : Nat) (f_name : String) :
    Except String Unit :=
  if params.length ≤ count then .ok ()
  else .error ("Function " ++ f_name ++ " should have no more than " ++ toString count ++ " parameters")

/-- Embedding of `assert_min_params_count` from `src/functions.rs` (lines
146-152). -/
def assert_min_params_count (params : VecRcExpr) (count : Nat) (f_name : String) :
    Except String Unit :=
  if count ≤ params.length then .ok ()
  else .error ("Function " ++ f_name ++ " should have " ++ toString count ++ " parameters or more")

/-- Embedding of `assert_between_params_count` from `src/functions.rs`
(lines 154-161). -/
def assert_between_params_count (params : VecRcExpr) (count_min count_max : Nat)
    (f_name : String) : Except String Unit :=
  if params.length < count_min ∨ count_max < params.length then
    .error ("Function " ++ f_name ++ " should have between " ++ toString count_min ++ " and "
      ++ toString count_max ++ " parameters")
  else .ok ()

/-- The `TRUE_STRING` regex of `exec_expr_to_bool`
(`^\s*(true|1)\s*$` with case-insensitive matching), modelled as
trimming surrounding whitespace and comparing lowercased. -/
def true_string_is_match (s : String) : Bool :=
  let t := s.trim.toLower
  t == "true" || t == "1"

mutual

/-- Modelled from the spec: the evaluator `exec_expr` of the missing
`expressions` module (spec section 4.E).  Literals become final values; an
`ArrayLit` evaluates its children into an `Array`; an identifier resolves
through the identifier map as a string; an unbound `FunctionCall` is the
unknown-function error; a `BoundCall` invokes its callable on the
UN-evaluated argument list (the lazy-argument contract of spec section 9).
The registry dispatch covers the subset of `get_functions`
(`src/functions.rs` lines 257-338) embedded in this file, aliases
included; a bound name outside that subset reports like an unbound call. -/
def exec_expr (expr : Expr) (values : IdentifierValues) : ExprFuncResult :=
  match expr with
  | .StrLit s => .ok (.Str s)
  | .NumLit n => .ok (.Num n)
  | .BoolLit b => .ok (.Boolean b)
  | .ArrayLit children =>
    match exec_expr_list children values with
    | .ok rs => .ok (.Array rs)
    | .error e => .error e
  | .Identifier name =>
    match List.lookup name values with
    | some s => .ok (.Str s)
    | none => .error ("Unable to find value for identifier named \x27" ++ name ++ "\x27")
  | .FunctionCall name _ => .error ("Unable to find the function named \x27" ++ name ++ "\x27")
  | .BoundCall name params =>
    if name = "IsNull" ∨ name = "IsBlank" then f_is_null params values
    else if name = "AreEquals" then f_are_equals params values
    else if name = "FirstNotNull" ∨ name = "FirstNotEmpty" then f_first_not_null params values
    else if name = "And" then f_and params values
    else if name = "Or" then f_or params values
    else if name = "Iif" ∨ name = "If" then f_iif params values
    else if name = "Len" then f_len params values
    else .error ("Unable to find the function named \x27" ++ name ++ "\x27")
termination_by 8 * sizeOf expr
decreasing_by all_goals (simp_wf; try omega)

/-- Child-by-child evaluation of an `ArrayLit`'s elements. -/
def exec_expr_list (children : List Expr) (values : IdentifierValues) :
    Except String (List ExprResult) :=
  match children with
  | [] => .ok []
  | e :: rest =>
    match exec_expr e values with
    | .error err => .error err
    | .ok r =>
      match exec_expr_list rest values with
      | .error err => .error err
      | .ok rs => .ok (r :: rs)
termination_by 8 * sizeOf children
decreasing_by all_goals (simp_wf; try omega)

/-- Embedding of `exec_expr_is_null` from `src/functions.rs` (lines
20-23). -/
def exec_expr_is_null (expr : Expr) (values : IdentifierValues) : Except String Bool :=
  match exec_expr expr values with
  | .error e => .error e
  | .ok res => .ok (match res with | .Null => true | _ => false)
termination_by 8 * sizeOf expr + 1
decreasing_by all_goals (simp_wf; try omega)

/-- Embedding of `exec_vec_is_null` from `src/functions.rs` (lines 9-18):
zero arguments is `true`, one argument tests its value, more is an
error — note the message does not follow the `Function <Name> should
have` convention. -/
def exec_vec_is_null (params : VecRcExpr) (values : IdentifierValues) : Except String Bool :=
  match params with
  | [] => .ok true
  | [p] => exec_expr_is_null p values
  | _ => .error "is_null only takes 0 or 1 parameter"
termination_by 8 * sizeOf params + 2
decreasing_by all_goals (simp_wf; try omega)

/-- Embedding of `exec_expr_to_string` from `src/functions.rs` (lines
45-48). -/
def exec_expr_to_string (expr : Expr) (values : IdentifierValues) : Except String String :=
  match exec_expr expr values with
  | .error e => .error e
  | .ok res => result_to_string res
termination_by 8 * sizeOf expr + 1
decreasing_by all_goals (simp_wf; try omega)

/-- Embedding of `exec_expr_to_bool` from `src/functions.rs` (lines
73-84): booleans pass through, a number is true iff it equals 1, a string
is matched against `TRUE_STRING`, anything else is a coercion error (the
source renders the offending expression in the message; the model renders
the value). -/
def exec_expr_to_bool (expr : Expr) (values : IdentifierValues) : Except String Bool :=
  match exec_expr expr values with
  | .error e => .error e
  | .ok res =>
    match res with
    | .Boolean b => .ok b
    | .Num n => .ok (n == (1 : ExprDecimal))
    | .Str s => .ok (true_string_is_match s)
    | r => .error ("\x27" ++ r.to_string ++ "\x27 is not a boolean")
termination_by 8 * sizeOf expr + 1
decreasing_by all_goals (simp_wf; try omega)

/-- Embedding of `f_is_null` from `src/functions.rs` (lines 355-358):
`IsNull` / `IsBlank`. -/
def f_is_null (params : VecRcExpr) (values : IdentifierValues) : ExprFuncResult :=
  match exec_vec_is_null params values with
  | .error e => .error e
  | .ok res => .ok (.Boolean res)
termination_by 8 * sizeOf params + 3
decreasing_by all_goals (simp_wf; try omega)

/-- Embedding of `f_are_equals` from `src/functions.rs` (lines 361-367).
The source first runs `assert_exact_params_count(params, 2, "AreEquals")`
and then unwraps the two arguments; the shape of the match realizes
exactly that, with the assertion's error string in the catch-all arm. -/
def f_are_equals (params : VecRcExpr) (values : IdentifierValues) : ExprFuncResult :=
  match params with
  | [p0, p1] =>
    match exec_expr p0 values with
    | .error e => .error e
    | .ok left =>
      match exec_expr p1 values with
      | .error e => .error e
      | .ok right => .ok (.Boolean (results_are_equals left right))
  | _ => .error "Function AreEquals should have exactly 2 parameters"
termination_by 8 * sizeOf params + 3
decreasing_by all_goals (simp_wf; try omega)

/-- Embedding of `f_first_not_null` from `src/functions.rs` (lines
405-414): return the first argument whose evaluation is not `Null`,
evaluating later arguments only when every earlier one was `Null`. -/
def f_first_not_null (params : VecRcExpr) (values : IdentifierValues) : ExprFuncResult :=
  match params with
  | [] => .ok .Null
  | p :: rest =>
    match exec_expr p values with
    | .error e => .error e
    | .ok p_result =>
      match p_result with
      | .Null => f_first_not_null rest values
      | r => .ok r
termination_by 8 * sizeOf params + 3
decreasing_by all_goals (simp_wf; try omega)

/-- Embedding of `f_and` from `src/functions.rs` (lines 757-765): coerce
arguments to booleans left to right, returning `false` at the first false
argument without touching the later ones. -/
def f_and (params : VecRcExpr) (values : IdentifierValues) : ExprFuncResult :=
  match params with
  | [] => .ok (.Boolean true)
  | p :: rest =>
    match exec_expr_to_bool p values with
    | .error e => .error e
    | .ok b => if b then f_and rest values else .ok (.Boolean false)
termination_by 8 * sizeOf params + 3
decreasing_by all_goals (simp_wf; try omega)

/-- Embedding of `f_or` from `src/functions.rs` (lines 768-776): dual of
`f_and`, returning `true` at the first true argument. -/
def f_or (params : VecRcExpr) (values : IdentifierValues) : ExprFuncResult :=
  match params with
  | [] => .ok (.Boolean false)
  | p :: rest =>
    match exec_expr_to_bool p values with
    | .error e => .error e
    | .ok b => if b then .ok (.Boolean true) else f_or rest values
termination_by 8 * sizeOf params + 3
decreasing_by all_goals (simp_wf; try omega)

/-- Embedding of `f_iif` from `src/functions.rs` (lines 793-797):
`Iif` / `If` evaluates the condition, then only the chosen branch.  The
source asserts exactly 3 parameters and then indexes them; the match shape
realizes that, with the assertion's error string in the catch-all arm. -/
def f_iif (params : VecRcExpr) (values : IdentifierValues) : ExprFuncResult :=
  match params with
  | [c, t, e] =>
    match exec_expr_to_bool c values with
    | .error err => .error err
    | .ok test => if test then exec_expr t values else exec_expr e values
  | _ => .error "Function Iif should have exactly 3 parameters"
termination_by 8 * sizeOf params + 3
decreasing_by all_goals (simp_wf; try omega)

/-- Embedding of `f_len` from `src/functions.rs` (lines 553-556), with
`single_string_func` (lines 547-551) inlined: stringify the single
argument and return Rust's `s.len()` — the UTF-8 BYTE length — as a
number.  The arity assertion's error string is in the catch-all arm. -/
def f_len (params : VecRcExpr) (values : IdentifierValues) : ExprFuncResult :=
  match params with
  | [p] =>
    match exec_expr_to_string p values with
    | .error e => .error e
    | .ok s => .ok (.Num (s.utf8ByteSize : ExprDecimal))
  | _ => .error "Function Len should have exactly 1 parameters"
termination_by 8 * sizeOf params + 3
decreasing_by all_goals (simp_wf; try omega)

end

end Functions

namespace LibExpr

/-- Embedding of `Expr` from `src/lib.rs` (lines 72-81).  The
`PreparedFunctionCall` variant of the source also stores an
`Rc<FunctionImpl>`; the source's `PartialEq` (lines 99-116) ignores that
field, and by the invariant that a prepared call holds exactly the callable
registered under its stored name, the callable is recovered from the
registry by name, so it is not stored in the node here. -/
inductive Expr where
  | Str (s : String)
  | Boolean (b : Bool)
  | Num (n : Rat)
  | Array (xs : List Expr)
  | Identifier (name : String)
  | FunctionCall (name : String) (params : List Expr)
  | PreparedFunctionCall (name : String) (params : List Expr)

/-- `type FunctionImpl = dyn Fn(&Vec<Expr>) -> Result<Expr, String>` from
`src/lib.rs` line 132. -/
def FunctionImpl := List Expr → Except String Expr

/-- `type FunctionImplList = HashMap<String, Rc<FunctionImpl>>` from
`src/lib.rs` line 133, modelled as its lookup function. -/
def FunctionImplList := String → Option FunctionImpl

/-- The identifier map `HashMap<String, String>`, modelled as an
association list. -/
def IdentifierValues := List (String × String)

mutual

/-- Embedding of `prepare_expr` from `src/lib.rs` (lines 246-261): a
`FunctionCall` whose name is registered becomes a `PreparedFunctionCall`
with recursively prepared parameters; an unregistered `FunctionCall` and
every other node kind are returned as they are. -/
def prepare_expr (expr : Expr) (funcs : FunctionImplList) : Expr :=
  match expr with
  | .FunctionCall name parameters =>
    match funcs name with
    | some _ => .PreparedFunctionCall name (prepare_expr_list parameters funcs)
    | none => .FunctionCall name parameters
  | e => e

/-- The `parameters.into_iter().map(|p| prepare_expr(p, &funcs)).collect()`
loop of `prepare_expr`. -/
def prepare_expr_list (params : List Expr) (funcs : FunctionImplList) : List Expr :=
  match params with
  | [] => []
  | p :: rest => prepare_expr p funcs :: prepare_expr_list rest funcs

end

/-- Embedding of `exec_expr` from `src/lib.rs` (lines 263-288).  The
`RefOrValue` borrowing optimization is elided: literal, array and
prepared-result nodes flow by value.  The callable of a
`PreparedFunctionCall` is looked up by name (see `Expr`).  The source
recurses on the arbitrary expression returned by the callable, which is not
structurally decreasing, so a fuel argument bounds that recursion; every
claim proved below holds for every fuel. -/
def exec_expr (funcs : FunctionImplList) : Nat → Expr → IdentifierValues → Except String Expr
  | fuel, expr, values =>
    match expr with
    | .Str s => .ok (.Str s)
    | .Boolean b => .ok (.Boolean b)
    | .Num n => .ok (.Num n)
    | .Array xs => .ok (.Array xs)
    | .Identifier name =>
      match List.lookup name values with
      | some s => .ok (.Str s)
      | none => .error ("Unable to find value for identifier named \x27" ++ name ++ "\x27")
    | .FunctionCall name _ => .error ("Unable to find the function named \x27" ++ name ++ "\x27")
    | .PreparedFunctionCall name parameters =>
      match fuel with
      | 0 => .error "evaluation recursion limit reached"
      | fuel' + 1 =>
        match funcs name with
        | some fnc =>
          match fnc parameters with
          | .ok call_result => exec_expr funcs fuel' call_result values
          | .error e => .error e
        | none => .error ("Unable to find the function named \x27" ++ name ++ "\x27")

end LibExpr

/-- A small registry for concrete instances: the single name `known` is
bound, every other name is free. -/
def demo_funcs : LibExpr.FunctionImplList :=
  fun name => if name = "known" then some (fun _ => .ok (.Num 0)) else none

/-- Claim C4: the LIKE-pattern-to-regex translator maps every input of the
section 4.H table to exactly the output of that table, in particular
`_O__%%___%%%O%` to `^.{1}O_%_.{1}%.*O.*$`. -/
theorem c4_like_translation :
    Functions.like_pattern_to_regex_pattern "abcd" = "^abcd$" ∧
    Functions.like_pattern_to_regex_pattern "a_cd" = "^a.{1}cd$" ∧
    Functions.like_pattern_to_regex_pattern "ab%d" = "^ab.*d$" ∧
    Functions.like_pattern_to_regex_pattern "ab%%cd" = "^ab%cd$" ∧
    Functions.like_pattern_to_regex_pattern "_abc" = "^.{1}abc$" ∧
    Functions.like_pattern_to_regex_pattern "%abc" = "^.*abc$" ∧
    Functions.like_pattern_to_regex_pattern "def_" = "^def.{1}$" ∧
    Functions.like_pattern_to_regex_pattern "def%" = "^def.*$" ∧
    Functions.like_pattern_to_regex_pattern "_O__%%___%%%O%" = "^.{1}O_%_.{1}%.*O.*$" := by
  refine ⟨?_, ?_, ?_, ?_, ?_, ?_, ?_, ?_, ?_⟩ <;> decide

/-- Claim C5: the .NET-to-strftime format translator maps
`yyyy-MM-dd HH:mm:ss.fff` to exactly `%Y-%m-%d %H:%M:%S.%3f`. -/
theorem c5_dotnet_format_translation :
    Functions.dotnet_format_to_strptime_format "yyyy-MM-dd HH:mm:ss.fff"
      = "%Y-%m-%d %H:%M:%S.%3f" := by
  decide

/-- Claim C2 fails on the code: binding `unknown(known())` where only
`known` is registered leaves the whole tree untouched; the nested call with
a registered name inside the unknown call's arguments is NOT bound. -/
theorem c2_binder_unknown_counterexample :
    LibExpr.prepare_expr (.FunctionCall "unknown" [.FunctionCall "known" []]) demo_funcs
        = .FunctionCall "unknown" [.FunctionCall "known" []] ∧
      LibExpr.prepare_expr (.FunctionCall "unknown" [.FunctionCall "known" []]) demo_funcs
        ≠ .FunctionCall "unknown" [.PreparedFunctionCall "known" []] := by
  constructor
  · simp [LibExpr.prepare_expr, demo_funcs]
  · simp [LibExpr.prepare_expr, demo_funcs]

/-- Claim C2 (amended): the binder leaves a `FunctionCall` whose name is not
in the registry completely unchanged — its argument subtrees are returned
exactly as they were, so nested calls with registered names inside those
arguments stay unbound `FunctionCall`s. -/
theorem c2_binder_unknown_amended (funcs : LibExpr.FunctionImplList) (name : String)
    (params : List LibExpr.Expr) (h : funcs name = none) :
    LibExpr.prepare_expr (.FunctionCall name params) funcs = .FunctionCall name params := by
  simp [LibExpr.prepare_expr, h]

/-- Witness for `c2_binder_unknown_amended` at a concrete unknown name with
a registered nested call. -/
theorem c2_binder_unknown_amended_witness :
    LibExpr.prepare_expr (.FunctionCall "unknown" [.FunctionCall "known" []]) demo_funcs
      = .FunctionCall "unknown" [.FunctionCall "known" []] :=
  c2_binder_unknown_amended demo_funcs "unknown" [.FunctionCall "known" []] (by rfl)

/-- Claim C9 fails on the code: the binder returns an `Array` node
unchanged, so a registered call inside an array literal stays an unbound
`FunctionCall`. -/
theorem c9_binder_array_counterexample :
    LibExpr.prepare_expr (.Array [.FunctionCall "known" []]) demo_funcs
        = .Array [.FunctionCall "known" []] ∧
      LibExpr.prepare_expr (.Array [.FunctionCall "known" []]) demo_funcs
        ≠ .Array [.PreparedFunctionCall "known" []] := by
  constructor
  · simp [LibExpr.prepare_expr]
  · simp [LibExpr.prepare_expr]

/-- Claim C9 (amended): every node that is not a `FunctionCall` — including
`Array` literals — is returned unchanged by the binder; array elements are
not recursively bound. -/
theorem c9_binder_array_amended (funcs : LibExpr.FunctionImplList) (e : LibExpr.Expr)
    (h : ∀ name params, e ≠ .FunctionCall name params) :
    LibExpr.prepare_expr e funcs = e := by
  cases e with
  | FunctionCall name params => exact absurd rfl (h name params)
  | _ => simp [LibExpr.prepare_expr]

/-- Witness for `c9_binder_array_amended`: an array literal holding a call
with a registered name is left untouched. -/
theorem c9_binder_array_amended_witness :
    LibExpr.prepare_expr (.Array [.FunctionCall "known" []]) demo_funcs
      = .Array [.FunctionCall "known" []] :=
  c9_binder_array_amended demo_funcs (.Array [.FunctionCall "known" []]) (by intro n ps; simp)

/-- Claim C10: binding is idempotent — `prepare_expr` applied to an already
prepared tree changes nothing, for every expression and registry. -/
theorem c10_prepare_idempotent (e : LibExpr.Expr) (funcs : LibExpr.FunctionImplList) :
    LibExpr.prepare_expr (LibExpr.prepare_expr e funcs) funcs = LibExpr.prepare_expr e funcs := by
  cases e with
  | FunctionCall name params =>
    cases h : funcs name with
    | some fnc => simp [LibExpr.prepare_expr, h]
    | none => simp [LibExpr.prepare_expr, h]
  | _ => simp [LibExpr.prepare_expr]

/-- Claim C6 fails on the code: the evaluator returns an `Array` node as it
is; the identifier inside the array literal is not resolved against the
identifier map. -/
theorem c6_array_eval_counterexample :
    LibExpr.exec_expr demo_funcs 1 (.Array [.Identifier "x"]) [("x", "v")]
        = .ok (.Array [.Identifier "x"]) ∧
      LibExpr.exec_expr demo_funcs 1 (.Array [.Identifier "x"]) [("x", "v")]
        ≠ .ok (.Array [.Str "v"]) := by
  constructor
  · rfl
  · simp [LibExpr.exec_expr]

/-- Claim C6 (amended): for every `Array` node the evaluator succeeds with
the very same node — children are not evaluated, and identifiers inside an
array literal are not resolved. -/
theorem c6_array_eval_amended (funcs : LibExpr.FunctionImplList) (fuel : Nat)
    (children : List LibExpr.Expr) (values : LibExpr.IdentifierValues) :
    LibExpr.exec_expr funcs fuel (.Array children) values = .ok (.Array children) := by
  simp [LibExpr.exec_expr]

/-- Claim C1: short-circuit correctness.  For every identifier map, every
argument expression `err` (in particular one whose evaluation fails) and
every expression `x` evaluating to a non-`Null` value `v`:
`And(false, err)` is `false`, `Or(true, err)` is `true`,
`Iif(true, x, err)` is `v`, and `FirstNotNull(x, err)` is `v` — in each
case the result does not depend on `err` at all, so the failing argument is
never evaluated and its error is never observed. -/
theorem c1_short_circuit (values : Functions.IdentifierValues)
    (x err : Functions.Expr) (v : Functions.ExprResult)
    (hx : Functions.exec_expr x values = .ok v) (hv : v ≠ .Null) :
    Functions.f_and [.BoolLit false, err] values = .ok (.Boolean false) ∧
    Functions.f_or [.BoolLit true, err] values = .ok (.Boolean true) ∧
    Functions.f_iif [.BoolLit true, x, err] values = .ok v ∧
    Functions.f_first_not_null [x, err] values = .ok v := by
  refine ⟨?_, ?_, ?_, ?_⟩
  · simp [Functions.f_and, Functions.exec_expr_to_bool, Functions.exec_expr]
  · simp [Functions.f_or, Functions.exec_expr_to_bool, Functions.exec_expr]
  · simp [Functions.f_iif, Functions.exec_expr_to_bool, Functions.exec_expr, hx]
  · rw [Functions.f_first_not_null]
    rw [hx]
    cases v <;> simp_all

/-- Witness for `c1_short_circuit`: the error argument is an unbound
identifier, whose evaluation fails. -/
theorem c1_short_circuit_witness :
    Functions.f_and [.BoolLit false, .Identifier "missing"] [] = .ok (.Boolean false) ∧
    Functions.f_or [.BoolLit true, .Identifier "missing"] [] = .ok (.Boolean true) ∧
    Functions.f_iif [.BoolLit true, .StrLit "a", .Identifier "missing"] [] = .ok (.Str "a") ∧
    Functions.f_first_not_null [.StrLit "a", .Identifier "missing"] [] = .ok (.Str "a") :=
  c1_short_circuit [] (.StrLit "a") (.Identifier "missing") (.Str "a")
    (by simp [Functions.exec_expr]) (by simp)

/-- Claim C3: `Null` is never equal to anything.  For every value `x`,
`results_are_equals` is false whenever either side is `Null` (including
`x = Null`), and `AreEquals` on arguments evaluating to `x` and `Null`
returns `Boolean false` both ways round. -/
theorem c3_null_never_equal (x : Functions.ExprResult) (a b : Functions.Expr)
    (values : Functions.IdentifierValues)
    (ha : Functions.exec_expr a values = .ok x)
    (hb : Functions.exec_expr b values = .ok .Null) :
    Functions.results_are_equals x .Null = false ∧
    Functions.results_are_equals .Null x = false ∧
    Functions.f_are_equals [a, b] values = .ok (.Boolean false) ∧
    Functions.f_are_equals [b, a] values = .ok (.Boolean false) := by
  have h1 : Functions.results_are_equals x .Null = false := by cases x <;> rfl
  have h2 : Functions.results_are_equals .Null x = false := by cases x <;> rfl
  refine ⟨h1, h2, ?_, ?_⟩
  · simp [Functions.f_are_equals, ha, hb, h1]
  · simp [Functions.f_are_equals, ha, hb, h2]

/-- Witness for `c3_null_never_equal` at `x = Null` itself: both arguments
are `FirstNotNull()` calls, which evaluate to `Null`. -/
theorem c3_null_never_equal_witness :
    Functions.results_are_equals .Null .Null = false ∧
    Functions.results_are_equals .Null .Null = false ∧
    Functions.f_are_equals [.BoundCall "FirstNotNull" [], .BoundCall "FirstNotNull" []] []
      = .ok (.Boolean false) ∧
    Functions.f_are_equals [.BoundCall "FirstNotNull" [], .BoundCall "FirstNotNull" []] []
      = .ok (.Boolean false) :=
  c3_null_never_equal .Null (.BoundCall "FirstNotNull" []) (.BoundCall "FirstNotNull" []) []
    (by simp [Functions.exec_expr, Functions.f_first_not_null])
    (by simp [Functions.exec_expr, Functions.f_first_not_null])

/-- Claim C7 fails on the code: `IsNull` called with two arguments violates
its 0-or-1 arity constraint, yet the error message is
`is_null only takes 0 or 1 parameter`, which does not have the
`Function <Name> should have ...` shape. -/
theorem c7_arity_message_counterexample :
    Functions.f_is_null [.BoolLit true, .BoolLit true] []
        = .error "is_null only takes 0 or 1 parameter" ∧
      List.isPrefixOf "Function ".toList "is_null only takes 0 or 1 parameter".toList = false := by
  constructor
  · simp [Functions.f_is_null, Functions.exec_vec_is_null]
  · decide

/-- Claim C7 (amended): arity constraints checked through the
`assert_*_params_count` helpers yield `Function <Name> should have ...`
without evaluating any argument (witness `f_are_equals`, whose violation
result is the same for every argument list of the wrong length and every
identifier map); but `IsNull` / `IsBlank` with two or more arguments
instead return the error `is_null only takes 0 or 1 parameter`, also
without evaluating any argument. -/
theorem c7_arity_amended (params : Functions.VecRcExpr)
    (values : Functions.IdentifierValues) (f_name : String) (count : Nat)
    (h2 : 2 ≤ params.length) (hc : params.length ≠ count) :
    Functions.f_is_null params values = .error "is_null only takes 0 or 1 parameter" ∧
    Functions.assert_exact_params_count params count f_name
      = .error ("Function " ++ f_name ++ " should have exactly " ++ toString count
          ++ " parameters") ∧
    (∀ a b c, Functions.f_are_equals [a, b, c] values
      = .error "Function AreEquals should have exactly 2 parameters") := by
  refine ⟨?_, ?_, ?_⟩
  · match params, h2 with
    | p :: q :: rest, _ => simp [Functions.f_is_null, Functions.exec_vec_is_null]
  · simp [Functions.assert_exact_params_count, hc]
  · intro a b c
    simp [Functions.f_are_equals]

/-- Witness for `c7_arity_amended`: two identifier arguments that would
fail if evaluated; the arity error fires first. -/
theorem c7_arity_amended_witness :
    Functions.f_is_null [.Identifier "m1", .Identifier "m2"] []
        = .error "is_null only takes 0 or 1 parameter" ∧
      Functions.assert_exact_params_count [.Identifier "m1", .Identifier "m2"] 5 "AreEquals"
        = .error ("Function " ++ "AreEquals" ++ " should have exactly " ++ toString 5
            ++ " parameters") ∧
      (∀ a b c, Functions.f_are_equals [a, b, c] []
        = .error "Function AreEquals should have exactly 2 parameters") :=
  c7_arity_amended [.Identifier "m1", .Identifier "m2"] [] "AreEquals" 5
    (by decide) (by decide)

/-- Claim C8 fails on the code: `Len` applied to the one-character string
`é` returns `Num 2` — Rust's `s.len()` counts UTF-8 bytes, not
characters. -/
theorem c8_len_counterexample :
    Functions.f_len [.StrLit "é"] [] = .ok (.Num 2) ∧ "é".length = 1 := by
  constructor
  · have h : String.utf8ByteSize "é" = 2 := by decide
    simp [Functions.f_len, Functions.exec_expr_to_string, Functions.exec_expr,
      Functions.result_to_string, Functions.ExprResult.is_final,
      Functions.ExprResult.to_string, h]
  · decide

/-- Claim C8 (amended): for every string `s`, `Len(s)` returns the UTF-8
byte count of `s` as a `Num` (this equals the character count exactly when
every character of `s` is a single UTF-8 byte). -/
theorem c8_len_amended (s : String) (values : Functions.IdentifierValues) :
    Functions.f_len [.StrLit s] values = .ok (.Num (s.utf8ByteSize : Rat)) := by
  simp [Functions.f_len, Functions.exec_expr_to_string, Functions.exec_expr,
    Functions.result_to_string, Functions.ExprResult.is_final, Functions.ExprResult.to_string]
